import Mathlib

/-!
Shallow embedding of `src/perfmon.c` (libperfmon), a Linux perf-counter
session library, together with proofs of the specified properties.

Modelling conventions:
* The OS environment is explicit: an `Env` records whether allocation of the
  context succeeds (`calloc` in `perfmon_init`) and, for each
  `perf_event_open` attribute pair `(type, config)`, whether acquisition of a
  counter handle succeeds.
* Kernel-side counter state (the state behind each file descriptor) is an
  `OsState`: per kind, the accumulated 64-bit count, whether the event is
  currently counting (toggled by the `PERF_EVENT_IOC_ENABLE` /
  `PERF_EVENT_IOC_DISABLE` ioctls), and whether a `read` on the fd returns
  short (the code treats a short read as a zero count).
* C `double` arithmetic on the derived metrics is modelled by exact rational
  arithmetic (`ℚ`); the conditional structure and operand order follow the
  source.
* The `!ctx` NULL-pointer guards of the C functions are pointer artifacts
  with no counterpart for a session value and drop out of the embedding;
  the out-of-range check `type >= PERFMON_MAX_COUNTERS` in
  `perfmon_enable_counter` / `perfmon_disable_counter` corresponds to
  validity of the `perfmon_counter_type` inductive.
* The loops in `perfmon_start`, `perfmon_stop` and `perfmon_reset` touch
  each slot independently, so they are embedded pointwise; `perfmon_start`
  additionally returns the list of ioctl events it issues, in program order,
  to express the reset-before-enable ordering.
* The thread-local `error_msg` is modelled as the `err` component of each
  operation's result: `some msg` when the operation called `set_error` with
  the fixed message `msg`, `none` otherwise (the `errno`-dependent messages
  of `setup_counter` carry no information the claims need).
-/

/-- The counter kinds of `perfmon_counter_type_t` in `perfmon.h`
(`PERFMON_MAX_COUNTERS` is the cardinality, not a kind). -/
inductive perfmon_counter_type where
  | PERFMON_CYCLES
  | PERFMON_INSTRUCTIONS
  | PERFMON_BRANCHES
  | PERFMON_BRANCH_MISSES
  | PERFMON_CACHE_REFERENCES
  | PERFMON_CACHE_MISSES
  | PERFMON_DTLB_LOAD_MISSES
  | PERFMON_ITLB_MISSES
  | PERFMON_PAGE_FAULTS
  | PERFMON_MINOR_FAULTS
  | PERFMON_MAJOR_FAULTS
  | PERFMON_CONTEXT_SWITCHES
  | PERFMON_CPU_MIGRATIONS
deriving DecidableEq

open perfmon_counter_type

/-- All counter kinds, in the order of the C enumeration. -/
def allKinds : List perfmon_counter_type :=
  [PERFMON_CYCLES, PERFMON_INSTRUCTIONS, PERFMON_BRANCHES, PERFMON_BRANCH_MISSES,
   PERFMON_CACHE_REFERENCES, PERFMON_CACHE_MISSES, PERFMON_DTLB_LOAD_MISSES,
   PERFMON_ITLB_MISSES, PERFMON_PAGE_FAULTS, PERFMON_MINOR_FAULTS,
   PERFMON_MAJOR_FAULTS, PERFMON_CONTEXT_SWITCHES, PERFMON_CPU_MIGRATIONS]

/-- The `perf_event_attr.type` value `perfmon_init` uses for each kind
(`PERF_TYPE_HARDWARE = 0`, `PERF_TYPE_SOFTWARE = 1`, `PERF_TYPE_HW_CACHE = 3`). -/
def eventType : perfmon_counter_type → Nat
  | PERFMON_CYCLES => 0
  | PERFMON_INSTRUCTIONS => 0
  | PERFMON_BRANCHES => 0
  | PERFMON_BRANCH_MISSES => 0
  | PERFMON_CACHE_REFERENCES => 0
  | PERFMON_CACHE_MISSES => 0
  | PERFMON_DTLB_LOAD_MISSES => 3
  | PERFMON_ITLB_MISSES => 3
  | PERFMON_PAGE_FAULTS => 1
  | PERFMON_MINOR_FAULTS => 1
  | PERFMON_MAJOR_FAULTS => 1
  | PERFMON_CONTEXT_SWITCHES => 1
  | PERFMON_CPU_MIGRATIONS => 1

/-- The `perf_event_attr.config` value `perfmon_init` uses for each kind.
The TLB configs are `DTLB/ITLB | (OP_READ << 8) | (RESULT_MISS << 16)`. -/
def eventConfig : perfmon_counter_type → Nat
  | PERFMON_CYCLES => 0
  | PERFMON_INSTRUCTIONS => 1
  | PERFMON_BRANCHES => 4
  | PERFMON_BRANCH_MISSES => 5
  | PERFMON_CACHE_REFERENCES => 2
  | PERFMON_CACHE_MISSES => 3
  | PERFMON_DTLB_LOAD_MISSES => 3 + 65536
  | PERFMON_ITLB_MISSES => 4 + 65536
  | PERFMON_PAGE_FAULTS => 2
  | PERFMON_MINOR_FAULTS => 5
  | PERFMON_MAJOR_FAULTS => 6
  | PERFMON_CONTEXT_SWITCHES => 3
  | PERFMON_CPU_MIGRATIONS => 4

/-- The OS environment visible to the library: whether `calloc` succeeds in
`perfmon_init`, and which `(type, config)` pairs `perf_event_open` accepts. -/
structure Env where
  allocOk : Bool
  acquire : Nat → Nat → Bool

/-- Kernel-side state of one perf event (the state behind a slot's fd):
its accumulated count, whether it is currently counting, and whether a
`read` on the fd would return short (degraded to a zero count by
`read_counter`). -/
structure os_counter where
  value : Nat
  osEnabled : Bool
  readFails : Bool
deriving DecidableEq

/-- Kernel-side state of all (potential) counters of one session. -/
def OsState := perfmon_counter_type → os_counter

/-- `perf_counter_t`: a slot's library-side state. `hasFd` is `fd != -1`. -/
structure perf_counter where
  hasFd : Bool
  enabled : Bool
deriving DecidableEq

/-- Monotonic timestamp, as `struct timespec`. -/
structure timespec where
  tv_sec : Int
  tv_nsec : Int
deriving DecidableEq

/-- `struct perfmon_context`: the session object. -/
structure perfmon_context where
  counters : perfmon_counter_type → perf_counter
  start_time : timespec
  end_time : timespec
  is_running : Bool

/-- `perfmon_stats_t`: raw 64-bit counts, elapsed time and derived metrics
(doubles modelled as `ℚ`). -/
structure perfmon_stats where
  cycles : Nat
  instructions : Nat
  branches : Nat
  branch_misses : Nat
  cache_references : Nat
  cache_misses : Nat
  dtlb_load_misses : Nat
  itlb_misses : Nat
  page_faults : Nat
  minor_faults : Nat
  major_faults : Nat
  context_switches : Nat
  cpu_migrations : Nat
  elapsed_time_sec : ℚ
  insn_per_cycle : ℚ
  branch_miss_rate : ℚ
  cache_miss_rate : ℚ

/-- The raw count a `perfmon_stats` record holds for a kind. -/
def statCount (s : perfmon_stats) : perfmon_counter_type → Nat
  | PERFMON_CYCLES => s.cycles
  | PERFMON_INSTRUCTIONS => s.instructions
  | PERFMON_BRANCHES => s.branches
  | PERFMON_BRANCH_MISSES => s.branch_misses
  | PERFMON_CACHE_REFERENCES => s.cache_references
  | PERFMON_CACHE_MISSES => s.cache_misses
  | PERFMON_DTLB_LOAD_MISSES => s.dtlb_load_misses
  | PERFMON_ITLB_MISSES => s.itlb_misses
  | PERFMON_PAGE_FAULTS => s.page_faults
  | PERFMON_MINOR_FAULTS => s.minor_faults
  | PERFMON_MAJOR_FAULTS => s.major_faults
  | PERFMON_CONTEXT_SWITCHES => s.context_switches
  | PERFMON_CPU_MIGRATIONS => s.cpu_migrations

/-- `setup_counter`: requests a disabled, inheritable counter; succeeds iff
the environment accepts the `(type, config)` pair. -/
def setup_counter (env : Env) (type config : Nat) : Bool :=
  env.acquire type config

/-- The context `perfmon_init` builds when `calloc` succeeds: every slot's
fd comes from its own `setup_counter` call and `enabled` is set iff that
call succeeded; timestamps are zeroed by `calloc`; not running. -/
def initCtx (env : Env) : perfmon_context where
  counters k := { hasFd := setup_counter env (eventType k) (eventConfig k),
                  enabled := setup_counter env (eventType k) (eventConfig k) }
  start_time := ⟨0, 0⟩
  end_time := ⟨0, 0⟩
  is_running := false

/-- `perfmon_init`: returns NULL (`none`) when allocation fails, otherwise
the freshly initialised context. -/
def perfmon_init (env : Env) : Option perfmon_context :=
  if env.allocOk then some (initCtx env) else none

/-- Kernel state right after `perfmon_init`: every counter is opened with
`pe.disabled = 1`, so it holds count 0 and is not counting. -/
def initOs : OsState := fun _ => ⟨0, false, false⟩

/-- One ioctl issued by `perfmon_start` on a slot's fd. -/
inductive Event where
  | ioc_reset (k : perfmon_counter_type)
  | ioc_enable (k : perfmon_counter_type)
deriving DecidableEq

/-- Result of `perfmon_start`: the returned bool, the context and kernel
state after the call, the ioctls issued in program order, and the
`set_error` message if any. -/
structure StartResult where
  ok : Bool
  ctx : perfmon_context
  os : OsState
  trace : List Event
  err : Option String

/-- Whether `perfmon_start` / `perfmon_stop` / `perfmon_reset` touch slot
`k`: the loop body guard `counters[i].enabled && counters[i].fd != -1`. -/
def slotActive (ctx : perfmon_context) (k : perfmon_counter_type) : Bool :=
  (ctx.counters k).enabled && (ctx.counters k).hasFd

/-- `perfmon_start`: fails (with no effect beyond the error message) while
running; otherwise resets then enables every active slot, records `now` as
the start time and sets the running flag. -/
def perfmon_start (ctx : perfmon_context) (os : OsState) (now : timespec) :
    StartResult :=
  if ctx.is_running then
    ⟨false, ctx, os, [], some "Monitoring already running"⟩
  else
    ⟨true,
     { ctx with start_time := now, is_running := true },
     fun k => if slotActive ctx k then
         { os k with value := 0, osEnabled := true }
       else os k,
     (allKinds.filter (slotActive ctx)).flatMap
       (fun k => [Event.ioc_reset k, Event.ioc_enable k]),
     none⟩

/-- `read_counter`: 0 when the fd is absent or the read comes back short,
otherwise the kernel's current count. -/
def read_counter (hasFd : Bool) (c : os_counter) : Nat :=
  if hasFd then (if c.readFails then 0 else c.value) else 0

/-- The raw count `perfmon_stop` reads for kind `k`. -/
def readKind (ctx : perfmon_context) (os : OsState) (k : perfmon_counter_type) :
    Nat :=
  read_counter (ctx.counters k).hasFd (os k)

/-- `timespec_diff_sec`: elapsed seconds with nanosecond precision. -/
def timespec_diff_sec (s e : timespec) : ℚ :=
  ((e.tv_sec - s.tv_sec : Int) : ℚ) + ((e.tv_nsec - s.tv_nsec : Int) : ℚ) / 1000000000

/-- The stats record `perfmon_stop` fills in: all raw counts read via
`read_counter`, the elapsed time, and the three derived metrics with the
source's conditional structure and operand order. -/
def mkStats (ctx : perfmon_context) (os : OsState) : perfmon_stats :=
  let cyc := readKind ctx os PERFMON_CYCLES
  let ins := readKind ctx os PERFMON_INSTRUCTIONS
  let br := readKind ctx os PERFMON_BRANCHES
  let brm := readKind ctx os PERFMON_BRANCH_MISSES
  let cr := readKind ctx os PERFMON_CACHE_REFERENCES
  let cm := readKind ctx os PERFMON_CACHE_MISSES
  { cycles := cyc
    instructions := ins
    branches := br
    branch_misses := brm
    cache_references := cr
    cache_misses := cm
    dtlb_load_misses := readKind ctx os PERFMON_DTLB_LOAD_MISSES
    itlb_misses := readKind ctx os PERFMON_ITLB_MISSES
    page_faults := readKind ctx os PERFMON_PAGE_FAULTS
    minor_faults := readKind ctx os PERFMON_MINOR_FAULTS
    major_faults := readKind ctx os PERFMON_MAJOR_FAULTS
    context_switches := readKind ctx os PERFMON_CONTEXT_SWITCHES
    cpu_migrations := readKind ctx os PERFMON_CPU_MIGRATIONS
    elapsed_time_sec := timespec_diff_sec ctx.start_time ctx.end_time
    insn_per_cycle := if cyc > 0 then (ins : ℚ) / (cyc : ℚ) else 0
    branch_miss_rate := if br > 0 then (brm : ℚ) / (br : ℚ) * 100 else 0
    cache_miss_rate := if cr > 0 then (cm : ℚ) / (cr : ℚ) * 100 else 0 }

/-- Result of `perfmon_stop`: the returned bool, the context and kernel
state after the call, the caller's stats record after the call (`none` for
a NULL pointer), and the `set_error` message if any. -/
structure StopResult where
  ok : Bool
  ctx : perfmon_context
  os : OsState
  stats : Option perfmon_stats
  err : Option String

/-- `perfmon_stop`: fails (leaving context, kernel state and the caller's
record untouched) while idle; otherwise records the end time, disables
every active slot, fills the caller's record if one was supplied, and
clears the running flag. -/
def perfmon_stop (ctx : perfmon_context) (os : OsState) (now : timespec)
    (stats : Option perfmon_stats) : StopResult :=
  if !ctx.is_running then
    ⟨false, ctx, os, stats, some "Monitoring not running"⟩
  else
    let ctx1 := { ctx with end_time := now }
    let os1 : OsState := fun k =>
      if slotActive ctx1 k then { os k with osEnabled := false } else os k
    ⟨true,
     { ctx1 with is_running := false },
     os1,
     stats.map (fun _ => mkStats ctx1 os1),
     none⟩

/-- `perfmon_reset`: resets every active slot's kernel count to zero;
returns true and leaves the context untouched. -/
def perfmon_reset (ctx : perfmon_context) (os : OsState) :
    Bool × perfmon_context × OsState :=
  (true, ctx,
   fun k => if slotActive ctx k then { os k with value := 0 } else os k)

/-- `perfmon_is_supported`: a throwaway acquisition of
`(PERF_TYPE_HARDWARE, PERF_COUNT_HW_CPU_CYCLES)`; stateless. -/
def perfmon_is_supported (env : Env) : Bool :=
  env.acquire 0 0

/-- `perfmon_enable_counter`: sets the slot's enabled flag only when the
slot holds a handle; otherwise returns false with no effect. -/
def perfmon_enable_counter (ctx : perfmon_context)
    (type : perfmon_counter_type) : Bool × perfmon_context :=
  if (ctx.counters type).hasFd then
    (true,
     { ctx with counters := fun j =>
         if j = type then { ctx.counters j with enabled := true }
         else ctx.counters j })
  else
    (false, ctx)

/-- `perfmon_disable_counter`: always succeeds and clears the slot's
enabled flag. -/
def perfmon_disable_counter (ctx : perfmon_context)
    (type : perfmon_counter_type) : Bool × perfmon_context :=
  (true,
   { ctx with counters := fun j =>
       if j = type then { ctx.counters j with enabled := false }
       else ctx.counters j })

/-- Workload activity between library calls: every event the kernel is
currently counting accumulates its delta (64-bit wraparound). -/
def os_activity (d : perfmon_counter_type → Nat) (os : OsState) : OsState :=
  fun k => if (os k).osEnabled then
      { os k with value := ((os k).value + d k) % 2 ^ 64 }
    else os k

/-! ### Concrete fixtures used by witnesses and counterexamples -/

/-- Environment in which every acquisition succeeds. -/
def envAll : Env := ⟨true, fun _ _ => true⟩

/-- Environment in which allocation of the context itself fails. -/
def envNoAlloc : Env := ⟨false, fun _ _ => true⟩

/-- Environment with no perf support at all: every acquisition fails. -/
def envNone : Env := ⟨true, fun _ _ => false⟩

/-- Environment of a typical virtual machine: hardware events are
unavailable (so the cycle-counter probe fails) but software events
(`PERF_TYPE_SOFTWARE = 1`) are available. -/
def envVm : Env := ⟨true, fun t _ => t == 1⟩

/-- A freshly opened session in the all-supported environment. -/
def ctxIdle : perfmon_context := initCtx envAll

/-- That session right after a successful `perfmon_start`. -/
def ctxRunning : perfmon_context := (perfmon_start ctxIdle initOs ⟨1, 0⟩).ctx

/-- Kernel state right after that successful `perfmon_start`. -/
def osRunning : OsState := (perfmon_start ctxIdle initOs ⟨1, 0⟩).os

/-- An all-zero caller-supplied stats record. -/
def zeroStats : perfmon_stats :=
  ⟨0, 0, 0, 0, 0, 0, 0, 0, 0, 0, 0, 0, 0, 0, 0, 0, 0⟩

/-! ### Helper lemmas -/

/-- Every kind is listed in `allKinds`. -/
theorem mem_allKinds (k : perfmon_counter_type) : k ∈ allKinds := by
  cases k <;> decide

/-- The raw count `mkStats` stores for kind `k` is exactly what
`read_counter` returned for that kind. -/
theorem statCount_mkStats (ctx : perfmon_context) (os : OsState)
    (k : perfmon_counter_type) :
    statCount (mkStats ctx os) k = readKind ctx os k := by
  cases k <;> rfl

/-- In the ioctl sequence built from a kind list, each listed kind's reset
appears strictly before its enable. -/
theorem reset_mem_before_enable {l : List perfmon_counter_type}
    {k : perfmon_counter_type} (h : k ∈ l) :
    ∃ l1 l2 l3,
      l.flatMap (fun j => [Event.ioc_reset j, Event.ioc_enable j]) =
        l1 ++ Event.ioc_reset k :: (l2 ++ Event.ioc_enable k :: l3) := by
  induction l with
  | nil => cases h
  | cons a t ih =>
    rcases List.mem_cons.mp h with rfl | h'
    · exact ⟨[], [],
        t.flatMap (fun j => [Event.ioc_reset j, Event.ioc_enable j]), rfl⟩
    · obtain ⟨l1, l2, l3, hl⟩ := ih h'
      exact ⟨Event.ioc_reset a :: Event.ioc_enable a :: l1, l2, l3, by
        simp [List.flatMap_cons, hl]⟩

/-! ### C1 -/

/-- C1: calling `perfmon_start` while the session is already running
returns failure with the "already running" diagnostic and has no side
effects: the context (running flag, timestamps, slots) and the kernel
state are unchanged and no ioctl is issued. -/
theorem start_while_running_fails (ctx : perfmon_context) (os : OsState)
    (now : timespec) (h : ctx.is_running = true) :
    perfmon_start ctx os now =
      ⟨false, ctx, os, [], some "Monitoring already running"⟩ := by
  simp [perfmon_start, h]

/-- Witness for C1 at a concrete running session. -/
theorem start_while_running_fails_witness :
    ctxRunning.is_running = true ∧
    perfmon_start ctxRunning osRunning ⟨2, 0⟩ =
      ⟨false, ctxRunning, osRunning, [], some "Monitoring already running"⟩ :=
  ⟨rfl, start_while_running_fails ctxRunning osRunning ⟨2, 0⟩ rfl⟩

/-! ### C2 -/

/-- C2: calling `perfmon_stop` while the session is idle returns failure
with the "not running" diagnostic and produces no snapshot: the context,
the kernel state and the caller-supplied record are all unchanged. -/
theorem stop_while_idle_fails (ctx : perfmon_context) (os : OsState)
    (now : timespec) (stats : Option perfmon_stats)
    (h : ctx.is_running = false) :
    perfmon_stop ctx os now stats =
      ⟨false, ctx, os, stats, some "Monitoring not running"⟩ := by
  simp [perfmon_stop, h]

/-- Witness for C2 at a freshly opened (idle) session. -/
theorem stop_while_idle_fails_witness :
    ctxIdle.is_running = false ∧
    perfmon_stop ctxIdle initOs ⟨3, 0⟩ (some zeroStats) =
      ⟨false, ctxIdle, initOs, some zeroStats, some "Monitoring not running"⟩ :=
  ⟨rfl, stop_while_idle_fails ctxIdle initOs ⟨3, 0⟩ (some zeroStats) rfl⟩

/-! ### C3 -/

/-- C3: in every snapshot produced by a successful `perfmon_stop`,
`insn_per_cycle` is `instructions / cycles` when `cycles > 0` and 0
otherwise, `branch_miss_rate` is `branch_misses / branches * 100` when
`branches > 0` and 0 otherwise, and `cache_miss_rate` is
`cache_misses / cache_references * 100` when `cache_references > 0` and 0
otherwise, the divisions exact (rational) on the untruncated counts. -/
theorem stop_derived_metrics (ctx : perfmon_context) (os : OsState)
    (now : timespec) (s0 : perfmon_stats) (h : ctx.is_running = true) :
    ∃ st, (perfmon_stop ctx os now (some s0)).stats = some st ∧
      st.insn_per_cycle =
        (if st.cycles > 0 then (st.instructions : ℚ) / (st.cycles : ℚ) else 0) ∧
      st.branch_miss_rate =
        (if st.branches > 0 then
           (st.branch_misses : ℚ) / (st.branches : ℚ) * 100 else 0) ∧
      st.cache_miss_rate =
        (if st.cache_references > 0 then
           (st.cache_misses : ℚ) / (st.cache_references : ℚ) * 100 else 0) := by
  refine ⟨mkStats { ctx with end_time := now }
      (fun k => if slotActive { ctx with end_time := now } k then
          { os k with osEnabled := false } else os k),
    ?_, rfl, rfl, rfl⟩
  simp [perfmon_stop, h]

/-- Witness for C3: a concrete running session whose counters hold 2 cycles,
7 instructions, no branches and 4 cache references with 1 miss. -/
theorem stop_derived_metrics_witness :
    ctxRunning.is_running = true ∧
    ∃ st, (perfmon_stop ctxRunning
             (os_activity
               (fun k => if k = PERFMON_CYCLES then 2 else
                 if k = PERFMON_INSTRUCTIONS then 7 else
                 if k = PERFMON_CACHE_REFERENCES then 4 else
                 if k = PERFMON_CACHE_MISSES then 1 else 0)
               osRunning)
             ⟨5, 0⟩ (some zeroStats)).stats = some st ∧
      st.insn_per_cycle =
        (if st.cycles > 0 then (st.instructions : ℚ) / (st.cycles : ℚ) else 0) ∧
      st.branch_miss_rate =
        (if st.branches > 0 then
           (st.branch_misses : ℚ) / (st.branches : ℚ) * 100 else 0) ∧
      st.cache_miss_rate =
        (if st.cache_references > 0 then
           (st.cache_misses : ℚ) / (st.cache_references : ℚ) * 100 else 0) :=
  ⟨rfl, stop_derived_metrics ctxRunning _ ⟨5, 0⟩ zeroStats rfl⟩

/-! ### C4 -/

/-- C4 counterexample: in an environment where allocation of the context
fails (but every counter acquisition would succeed), `perfmon_init` returns
no session object at all, so "open() never fails fatally: for every
environment ... it returns a session object" is false as stated. -/
theorem init_alloc_failure_returns_no_session :
    perfmon_init envNoAlloc = none := rfl

/-- C4 amended: whenever allocation of the session object succeeds,
`perfmon_init` returns a session, and each slot's acquisition outcome
depends only on that slot's own `(type, config)` request: a failed kind
leaves its own slot without a handle and not enabled, and does not prevent
acquisition of the remaining kinds. -/
theorem init_best_effort (env : Env) (h : env.allocOk = true) :
    ∃ ctx, perfmon_init env = some ctx ∧
      ∀ k, (ctx.counters k).hasFd = env.acquire (eventType k) (eventConfig k) ∧
        (ctx.counters k).enabled = env.acquire (eventType k) (eventConfig k) :=
  ⟨initCtx env, by simp [perfmon_init, h], fun _ => ⟨rfl, rfl⟩⟩

/-- Witness for C4 (amended) in the environment where every single
acquisition fails: a session still comes back, with every slot handle-less
and disabled. -/
theorem init_best_effort_witness :
    envNone.allocOk = true ∧
    ∃ ctx, perfmon_init envNone = some ctx ∧
      ∀ k, (ctx.counters k).hasFd = envNone.acquire (eventType k) (eventConfig k) ∧
        (ctx.counters k).enabled = envNone.acquire (eventType k) (eventConfig k) :=
  ⟨rfl, init_best_effort envNone rfl⟩

/-! ### C5 -/

/-- C5: `perfmon_start` from idle succeeds; for every enabled slot holding
a handle it issues the counter reset strictly before the counter enable
(leaving that slot's kernel count at 0 and counting), records `now` as the
start time, and sets the session running. -/
theorem start_from_idle (ctx : perfmon_context) (os : OsState)
    (now : timespec) (h : ctx.is_running = false) :
    (perfmon_start ctx os now).ok = true ∧
    (perfmon_start ctx os now).ctx.is_running = true ∧
    (perfmon_start ctx os now).ctx.start_time = now ∧
    ∀ k, slotActive ctx k = true →
      (∃ l1 l2 l3, (perfmon_start ctx os now).trace =
          l1 ++ Event.ioc_reset k :: (l2 ++ Event.ioc_enable k :: l3)) ∧
      (perfmon_start ctx os now).os k =
        { os k with value := 0, osEnabled := true } := by
  refine ⟨by simp [perfmon_start, h], by simp [perfmon_start, h],
    by simp [perfmon_start, h], fun k hk => ⟨?_, by simp [perfmon_start, h, hk]⟩⟩
  have hmem : k ∈ allKinds.filter (slotActive ctx) :=
    List.mem_filter.mpr ⟨mem_allKinds k, hk⟩
  simpa [perfmon_start, h] using reset_mem_before_enable hmem

/-- Witness for C5 at a freshly opened all-supported session. -/
theorem start_from_idle_witness :
    ctxIdle.is_running = false ∧
    ((perfmon_start ctxIdle initOs ⟨1, 0⟩).ok = true ∧
     (perfmon_start ctxIdle initOs ⟨1, 0⟩).ctx.is_running = true ∧
     (perfmon_start ctxIdle initOs ⟨1, 0⟩).ctx.start_time = ⟨1, 0⟩ ∧
     ∀ k, slotActive ctxIdle k = true →
       (∃ l1 l2 l3, (perfmon_start ctxIdle initOs ⟨1, 0⟩).trace =
           l1 ++ Event.ioc_reset k :: (l2 ++ Event.ioc_enable k :: l3)) ∧
       (perfmon_start ctxIdle initOs ⟨1, 0⟩).os k =
         { initOs k with value := 0, osEnabled := true }) :=
  ⟨rfl, start_from_idle ctxIdle initOs ⟨1, 0⟩ rfl⟩

/-! ### C6 -/

/-- First measurement in the C6 scenario: open in the all-supported
environment, then start with every slot enabled. -/
def c6_start1 : StartResult := perfmon_start (initCtx envAll) initOs ⟨1, 0⟩

/-- Workload activity of the first measurement: every counting event
accumulates 100. -/
def c6_os2 : OsState := os_activity (fun _ => 100) c6_start1.os

/-- End of the first measurement. -/
def c6_stop1 : StopResult := perfmon_stop c6_start1.ctx c6_os2 ⟨2, 0⟩ (some zeroStats)

/-- The cycle counter is then disabled before the second start. -/
def c6_ctx3 : perfmon_context :=
  (perfmon_disable_counter c6_stop1.ctx PERFMON_CYCLES).2

/-- Second measurement: start with the cycle slot disabled. -/
def c6_start2 : StartResult := perfmon_start c6_ctx3 c6_stop1.os ⟨3, 0⟩

/-- The matching stop of the second measurement (no further activity). -/
def c6_stop2 : StopResult :=
  perfmon_stop c6_start2.ctx c6_start2.os ⟨4, 0⟩ (some zeroStats)

/-- C6 counterexample: the cycle kind is disabled before the second
`perfmon_start`, the start/stop pair succeeds, yet the snapshot's cycle
count is the stale 100 from the first measurement, not 0: the disabled
slot still holds a handle and is read unconditionally. -/
theorem disabled_kind_stale_nonzero_count :
    (c6_ctx3.counters PERFMON_CYCLES).enabled = false ∧
    c6_start2.ok = true ∧ c6_stop2.ok = true ∧
    c6_stop2.stats.map (fun st => statCount st PERFMON_CYCLES) = some 100 := by
  decide

/-- C6 amended: for the first measurement after `perfmon_init`, a kind
disabled before `perfmon_start` does read as 0 in the snapshot of the
matching `perfmon_stop` (its kernel counter still holds the initial 0);
after a session in which the kind counted, a stale nonzero value is
reported instead. -/
theorem disabled_before_first_start_reads_zero (env : Env)
    (ctx0 : perfmon_context) (k : perfmon_counter_type)
    (d : perfmon_counter_type → Nat) (t1 t2 : timespec) (s0 : perfmon_stats)
    (h : perfmon_init env = some ctx0) :
    (perfmon_start (perfmon_disable_counter ctx0 k).2 initOs t1).ok = true ∧
    ((perfmon_stop
        (perfmon_start (perfmon_disable_counter ctx0 k).2 initOs t1).ctx
        (os_activity d
          (perfmon_start (perfmon_disable_counter ctx0 k).2 initOs t1).os)
        t2 (some s0)).stats.map (fun st => statCount st k)) = some 0 := by
  have hc : ctx0 = initCtx env := by
    by_cases ha : env.allocOk
    · simpa [perfmon_init, ha, eq_comm] using h
    · simp [perfmon_init, ha] at h
  subst hc
  refine ⟨by simp [perfmon_start, perfmon_disable_counter, initCtx], ?_⟩
  simp [perfmon_start, perfmon_stop, perfmon_disable_counter, initCtx,
    slotActive, os_activity, initOs, statCount_mkStats, readKind, read_counter]

/-- Witness for C6 (amended): disabling the cycle kind right after open
yields a 0 cycle count in the first snapshot. -/
theorem disabled_before_first_start_reads_zero_witness :
    perfmon_init envAll = some ctxIdle ∧
    ((perfmon_start (perfmon_disable_counter ctxIdle PERFMON_CYCLES).2
        initOs ⟨1, 0⟩).ok = true ∧
     ((perfmon_stop
         (perfmon_start (perfmon_disable_counter ctxIdle PERFMON_CYCLES).2
           initOs ⟨1, 0⟩).ctx
         (os_activity (fun _ => 5)
           (perfmon_start (perfmon_disable_counter ctxIdle PERFMON_CYCLES).2
             initOs ⟨1, 0⟩).os)
         ⟨2, 0⟩ (some zeroStats)).stats.map
        (fun st => statCount st PERFMON_CYCLES)) = some 0) :=
  ⟨rfl, disabled_before_first_start_reads_zero envAll ctxIdle PERFMON_CYCLES
    (fun _ => 5) ⟨1, 0⟩ ⟨2, 0⟩ zeroStats rfl⟩

/-! ### C7 -/

/-- C7 counterexample: in the virtual-machine environment hardware events
are unavailable, so `perfmon_is_supported` (which probes the hardware
cycle counter) returns false, yet the session from `perfmon_init` has a
handle for the software page-fault kind and `perfmon_enable_counter`
returns true for it — refuting "enable(kind) returns false for every
valid kind" whenever `is_supported()` is false. -/
theorem enable_true_despite_unsupported :
    perfmon_is_supported envVm = false ∧
    perfmon_init envVm = some (initCtx envVm) ∧
    (perfmon_enable_counter (initCtx envVm) PERFMON_PAGE_FAULTS).1 = true := by
  refine ⟨rfl, rfl, rfl⟩

/-- C7 amended: in every environment where every acquisition fails (perf
wholly unavailable, not merely the cycle-counter probe),
`perfmon_is_supported` returns false and `perfmon_init` still returns a
usable session on which `perfmon_enable_counter` returns false, with no
effect, for every valid kind. -/
theorem unsupported_env_all_enable_false (env : Env)
    (hall : ∀ t c, env.acquire t c = false) (halloc : env.allocOk = true) :
    perfmon_is_supported env = false ∧
    ∃ ctx, perfmon_init env = some ctx ∧
      ∀ k, perfmon_enable_counter ctx k = (false, ctx) := by
  refine ⟨hall 0 0, initCtx env, by simp [perfmon_init, halloc], fun k => ?_⟩
  simp [perfmon_enable_counter, initCtx, setup_counter, hall]

/-- Witness for C7 (amended) in the environment with no perf support. -/
theorem unsupported_env_all_enable_false_witness :
    envNone.allocOk = true ∧
    (perfmon_is_supported envNone = false ∧
     ∃ ctx, perfmon_init envNone = some ctx ∧
       ∀ k, perfmon_enable_counter ctx k = (false, ctx)) :=
  ⟨rfl, unsupported_env_all_enable_false envNone (fun _ _ => rfl) rfl⟩

/-! ### C8 -/

/-- C8: `perfmon_reset` is valid in either state: for every session it
returns true, zeroes the kernel count of every enabled slot holding a
handle (preserving the slot's counting state and read behaviour), leaves
every other slot's kernel state alone, and leaves the context — enabled
flags, running flag, and both timestamps — untouched. -/
theorem reset_frame (ctx : perfmon_context) (os : OsState) :
    (perfmon_reset ctx os).1 = true ∧
    (perfmon_reset ctx os).2.1 = ctx ∧
    (∀ k, slotActive ctx k = true →
      (perfmon_reset ctx os).2.2 k = { os k with value := 0 }) ∧
    (∀ k, slotActive ctx k = false → (perfmon_reset ctx os).2.2 k = os k) :=
  ⟨rfl, rfl, fun k hk => by simp [perfmon_reset, hk],
   fun k hk => by simp [perfmon_reset, hk]⟩

/-- Witness for C8 on a running session with an active cycle slot. -/
theorem reset_frame_witness :
    (perfmon_reset ctxRunning osRunning).1 = true ∧
    (perfmon_reset ctxRunning osRunning).2.1 = ctxRunning ∧
    (perfmon_reset ctxRunning osRunning).2.2 PERFMON_CYCLES =
      { osRunning PERFMON_CYCLES with value := 0 } :=
  ⟨(reset_frame ctxRunning osRunning).1,
   (reset_frame ctxRunning osRunning).2.1,
   (reset_frame ctxRunning osRunning).2.2.1 PERFMON_CYCLES (by decide)⟩

/-! ### C9 -/

/-- A slot with no handle is never enabled. -/
def slotInv (ctx : perfmon_context) : Prop :=
  ∀ k, (ctx.counters k).enabled = true → (ctx.counters k).hasFd = true

/-- C9: every operation preserves the slot invariant "no handle → not
enabled": `perfmon_init` establishes it; `perfmon_enable_counter` on a
handle-less slot returns false with no side effects and otherwise
preserves the invariant; `perfmon_disable_counter`, `perfmon_start` and
`perfmon_stop` preserve it; and `perfmon_reset` leaves the context
untouched, so no operation but enable ever sets an enabled flag to
true. -/
theorem slot_invariant_preserved :
    (∀ env ctx, perfmon_init env = some ctx → slotInv ctx) ∧
    (∀ ctx k, (ctx.counters k).hasFd = false →
      perfmon_enable_counter ctx k = (false, ctx)) ∧
    (∀ ctx k, slotInv ctx → slotInv (perfmon_enable_counter ctx k).2) ∧
    (∀ ctx k, slotInv ctx → slotInv (perfmon_disable_counter ctx k).2) ∧
    (∀ ctx os now, slotInv ctx → slotInv (perfmon_start ctx os now).ctx) ∧
    (∀ ctx os now s, slotInv ctx → slotInv (perfmon_stop ctx os now s).ctx) ∧
    (∀ ctx os, (perfmon_reset ctx os).2.1 = ctx) := by
  refine ⟨?_, ?_, ?_, ?_, ?_, ?_, fun ctx os => rfl⟩
  · intro env ctx h
    have hc : ctx = initCtx env := by
      by_cases ha : env.allocOk
      · simpa [perfmon_init, ha, eq_comm] using h
      · simp [perfmon_init, ha] at h
    subst hc
    intro k hk
    simpa [initCtx] using hk
  · intro ctx k h
    simp [perfmon_enable_counter, h]
  · intro ctx k hinv j hj
    by_cases hf : (ctx.counters k).hasFd
    · simp only [perfmon_enable_counter, hf, if_true] at hj ⊢
      by_cases hjk : j = k
      · subst hjk; simpa using hf
      · simp only [hjk, if_false] at hj ⊢
        exact hinv j hj
    · simp only [perfmon_enable_counter, hf, if_false] at hj ⊢
      exact hinv j hj
  · intro ctx k hinv j hj
    simp only [perfmon_disable_counter] at hj ⊢
    by_cases hjk : j = k
    · subst hjk; simp at hj
    · simp only [hjk, if_false] at hj ⊢
      exact hinv j hj
  · intro ctx os now hinv j hj
    by_cases hr : ctx.is_running <;>
      simp only [perfmon_start, hr, if_true, if_false] at hj ⊢ <;>
      exact hinv j hj
  · intro ctx os now s hinv j hj
    by_cases hr : ctx.is_running <;>
      simp only [perfmon_stop, hr, Bool.not_true, Bool.not_false,
        if_true, if_false] at hj ⊢ <;>
      exact hinv j hj

/-- Witness for C9: the invariant holds for a freshly opened session, and
enabling the handle-less cycle slot of the no-support session fails with
no effect. -/
theorem slot_invariant_preserved_witness :
    slotInv ctxIdle ∧
    perfmon_enable_counter (initCtx envNone) PERFMON_CYCLES =
      (false, initCtx envNone) :=
  ⟨slot_invariant_preserved.1 envAll ctxIdle rfl,
   slot_invariant_preserved.2.1 (initCtx envNone) PERFMON_CYCLES rfl⟩

/-! ### C10 -/

/-- C10: on a successful `perfmon_stop`, every slot holding a handle is
read regardless of its enabled flag — the snapshot's raw count for each
kind is exactly the kernel counter's current value whenever the handle is
present (0 on a short read), and 0 only when the handle is absent; the
formula does not mention the slot's enabled flag at all. -/
theorem stop_reads_ignore_enabled (ctx : perfmon_context) (os : OsState)
    (now : timespec) (s0 : perfmon_stats) (h : ctx.is_running = true) :
    ∃ st, (perfmon_stop ctx os now (some s0)).stats = some st ∧
      ∀ k, statCount st k =
        (if (ctx.counters k).hasFd then
           (if (os k).readFails then 0 else (os k).value) else 0) := by
  refine ⟨mkStats { ctx with end_time := now }
      (fun k => if slotActive { ctx with end_time := now } k then
          { os k with osEnabled := false } else os k),
    by simp [perfmon_stop, h], fun k => ?_⟩
  rw [statCount_mkStats]
  by_cases ha : slotActive { ctx with end_time := now } k <;>
    simp [readKind, read_counter, ha]

/-- A session whose cycle slot holds a handle but is disabled, all other
slots enabled, currently running. -/
def ctxDisabledCycles : perfmon_context where
  counters k := if k = PERFMON_CYCLES then ⟨true, false⟩ else ⟨true, true⟩
  start_time := ⟨0, 0⟩
  end_time := ⟨0, 0⟩
  is_running := true

/-- Kernel state in which every counter holds the value 7. -/
def osSeven : OsState := fun _ => ⟨7, true, false⟩

/-- Witness for C10: stopping the session with the disabled-but-handled
cycle slot reports the kernel's stale 7 for cycles, not 0. -/
theorem stop_reads_ignore_enabled_witness :
    (ctxDisabledCycles.counters PERFMON_CYCLES).enabled = false ∧
    ∃ st, (perfmon_stop ctxDisabledCycles osSeven ⟨9, 0⟩
             (some zeroStats)).stats = some st ∧
      ∀ k, statCount st k =
        (if (ctxDisabledCycles.counters k).hasFd then
           (if (osSeven k).readFails then 0 else (osSeven k).value) else 0) :=
  ⟨rfl, stop_reads_ignore_enabled ctxDisabledCycles osSeven ⟨9, 0⟩ zeroStats rfl⟩
